import Mathlib

/-!
# Verification of the ESP32-C6 LD2410C radar sketch (`src/main.cpp`)

Shallow embedding of the Arduino sketch.  Serial output is modelled as a
trace of structured fragments (`Frag`): a `print` of a string literal, a
`print` of a numeric value, a `print` of a value in hexadecimal, and the
newline a `println` appends.  Side effects other than serial output
(`radar.read()`, `radar.begin(...)`, command requests, `delay(...)`) are
recorded as `Act`s.  The results of the blocking ld2410 library calls
(`radar.begin`, `requestCurrentConfiguration`, `requestStartEngineeringMode`)
and the values `millis()` returns are supplied by oracles, since they depend
on the hardware.  `uint32_t` arithmetic on `millis()` values is modelled
with explicit `% 2^32`.
-/

/-- A fragment emitted on the monitor serial: a literal string print, a
decimal number print, a hexadecimal number print, or the end-of-line a
`println` appends. -/
inductive Frag where
  | lit (s : String)
  | num (n : Nat)
  | numHex (n : Nat)
  | newline
deriving DecidableEq, Repr

/-- One observable action of the sketch: a serial emission, a delay, a
serial-port initialisation, a `radar.debug` call, a `radar.read()` call, or
one of the three blocking ld2410 commands together with the Bool it
returned. -/
inductive Act where
  | emit (f : Frag)
  | delayMs (n : Nat)
  | serialBegin
  | radarDebug
  | flush
  | radarRead
  | radarBegin (ok : Bool)
  | reqCurrentConfig (ok : Bool)
  | reqStartEngMode (ok : Bool)
deriving DecidableEq, Repr

/-- Modelled from the spec: the target-state byte of a data-report frame
"encodes presence/moving/stationary combination as an enumerated value —
not independent bits"; the decoding lives in the ld2410 library, which is
not part of this repository's sources. -/
inductive TargetState where
  | noTarget
  | movingOnly
  | stationaryOnly
  | movingAndStationary
deriving DecidableEq, Repr

/-- Modelled from the spec: map of the enumerated target-state value to the
(presence, movingDetected, stationaryDetected) flags exposed by the ld2410
library getters. -/
def decodeTargetFlags : TargetState → Bool × Bool × Bool
  | .noTarget => (false, false, false)
  | .movingOnly => (true, true, false)
  | .stationaryOnly => (true, false, true)
  | .movingAndStationary => (true, true, true)

/-- The ld2410 library object as the sketch observes it: the decoded target
state, the target distances/energies, the per-gate engineering energies,
the stored configuration, the firmware version and the connectivity flag.
Per-gate arrays are modelled as functions from the gate index. -/
structure Radar where
  targetState : TargetState
  stationaryTargetDistance : Nat
  stationaryTargetEnergy : Nat
  movingTargetDistance : Nat
  movingTargetEnergy : Nat
  engineering_moving_energy : Nat → Nat
  engineering_stationary_energy : Nat → Nat
  max_gate : Nat
  max_moving_gate : Nat
  max_stationary_gate : Nat
  sensor_idle_time : Nat
  motion_sensitivity : Nat → Nat
  stationary_sensitivity : Nat → Nat
  firmware_major_version : Nat
  firmware_minor_version : Nat
  firmware_bugfix_version : Nat
  isConnected : Bool

/-- `radar.presenceDetected()` (modelled from the spec via the target-state
decoding). -/
def Radar.presenceDetected (r : Radar) : Bool :=
  (decodeTargetFlags r.targetState).1

/-- `radar.movingTargetDetected()` (modelled from the spec via the
target-state decoding). -/
def Radar.movingTargetDetected (r : Radar) : Bool :=
  (decodeTargetFlags r.targetState).2.1

/-- `radar.stationaryTargetDetected()` (modelled from the spec via the
target-state decoding). -/
def Radar.stationaryTargetDetected (r : Radar) : Bool :=
  (decodeTargetFlags r.targetState).2.2

/-- The global mutable state of the sketch: `lastReading`, `lastConfigRead`,
`configDisplayed`, `engineeringMode` (file-scope globals, lines 25–28) and
the `static int debugCounter` local to `printDetectionInfo` (line 108). -/
structure SketchState where
  lastReading : Nat
  lastConfigRead : Nat
  configDisplayed : Bool
  engineeringMode : Bool
  debugCounter : Nat
deriving DecidableEq, Repr

/-- The globals' initialisers (lines 25–28). -/
def initialState : SketchState :=
  { lastReading := 0, lastConfigRead := 0, configDisplayed := false,
    engineeringMode := false, debugCounter := 0 }

/-- `2^32` truncation of a stored `uint32_t` value. -/
def wrap32 (n : Nat) : Nat := n % 4294967296

/-- `uint32_t` subtraction `a - b` as the C expression computes it. -/
def usub32 (a b : Nat) : Nat :=
  (a + (4294967296 - b % 4294967296)) % 4294967296

/-- The C++ loop `for(int i = 0; i < n; i++) body(i)`, collecting the
fragments/actions each iteration emits, in iteration order. -/
def gateLoop {α : Type} (f : Nat → List α) : Nat → List α
  | 0 => []
  | n + 1 => gateLoop f n ++ f n

/-- `printSeparator()` (lines 30–32). -/
def printSeparator : List Frag :=
  [.lit "====================================", .newline]

/-- `printConfiguration()` (lines 34–68). -/
def printConfiguration (r : Radar) : List Frag :=
  printSeparator ++ [.lit "SENSOR CONFIGURATION:", .newline] ++ printSeparator ++
  [.lit "Max gate: ", .num r.max_gate, .newline,
   .lit "Max moving gate: ", .num r.max_moving_gate, .newline,
   .lit "Max stationary gate: ", .num r.max_stationary_gate, .newline,
   .lit "Sensor idle time: ", .num r.sensor_idle_time, .lit " seconds", .newline,
   .lit "\nMotion Sensitivity (per gate):", .newline] ++
  gateLoop (fun i =>
    [.lit "  Gate ", .num i, .lit ": ", .num (r.motion_sensitivity i), .newline]) 9 ++
  [.lit "\nStationary Sensitivity (per gate):", .newline] ++
  gateLoop (fun i =>
    [.lit "  Gate ", .num i, .lit ": ", .num (r.stationary_sensitivity i), .newline]) 9 ++
  printSeparator

/-- `printDetectionInfo()` (lines 69–114).  Takes the `engineeringMode`
global and the current value of the static `debugCounter`; returns the
emitted fragments and the new `debugCounter`. -/
def printDetectionInfo (r : Radar) (engineeringMode : Bool) (debugCounter : Nat) :
    List Frag × Nat :=
  let base : List Frag :=
    [.lit "Presence: "] ++
    (if r.presenceDetected then
      [.lit "YES"] ++
      (if r.stationaryTargetDetected then
        [.lit " | Stationary: ", .num r.stationaryTargetDistance,
         .lit "cm E:", .num r.stationaryTargetEnergy]
       else []) ++
      (if r.movingTargetDetected then
        [.lit " | Moving: ", .num r.movingTargetDistance,
         .lit "cm E:", .num r.movingTargetEnergy]
       else []) ++
      [.newline]
     else [.lit "NO", .newline])
  if engineeringMode then
    (base ++ [.lit "GATES_MOV:"] ++
     gateLoop (fun i =>
       .num (r.engineering_moving_energy i) :: (if i < 8 then [.lit ","] else [])) 9 ++
     [.lit " | GATES_STAT:"] ++
     gateLoop (fun i =>
       .num (r.engineering_stationary_energy i) :: (if i < 8 then [.lit ","] else [])) 9 ++
     [.newline], debugCounter)
  else
    if debugCounter + 1 ≥ 50 then
      (base ++ [.lit "DEBUG: Engineering mode not enabled", .newline], 0)
    else
      (base, debugCounter + 1)

/-- The console-command dispatch in `loop` (lines 228–244), applied to the
already-trimmed line: only `"GET_CONFIG"` produces a reply, every other
line falls through with no output. -/
def handleCommand (r : Radar) (cmd : String) : List Frag :=
  if cmd = "GET_CONFIG" then
    [.lit "CONFIG_START", .newline] ++
    gateLoop (fun i =>
      [.lit "SENSITIVITY_MOTION:", .num i, .lit ":", .num (r.motion_sensitivity i),
       .newline]) 9 ++
    gateLoop (fun i =>
      [.lit "SENSITIVITY_STATIC:", .num i, .lit ":", .num (r.stationary_sensitivity i),
       .newline]) 9 ++
    [.lit "CONFIG_END", .newline]
  else []

/-- Oracle for the hardware-dependent results `setup` consumes: the result
of `radar.begin`, of `requestCurrentConfiguration`, and of the n-th
`requestStartEngineeringMode` attempt. -/
structure SetupOracle where
  beginOk : Bool
  configOk : Bool
  engAttempt : Nat → Bool

/-- The engineering-mode retry loop in `setup` (lines 181–197): from attempt
index `i` with the given fuel, emit the attempt banner, issue the single-shot
`requestStartEngineeringMode`, stop on the first success (setting the flag),
otherwise print FAILED, wait 1000 ms and retry.  Returns the actions and
the final value of `eng_success`/`engineeringMode`. -/
def engRetry (att : Nat → Bool) : Nat → Nat → List Act × Bool
  | _, 0 => ([], false)
  | i, fuel + 1 =>
    let banner : List Act :=
      [.emit (.lit "Attempt "), .emit (.num (i + 1)), .emit (.lit "/3... "), .flush]
    if att i then
      (banner ++ [.reqStartEngMode true, .emit (.lit "SUCCESS"), .emit .newline], true)
    else
      let rest := engRetry att (i + 1) fuel
      (banner ++ [.reqStartEngMode false, .emit (.lit "FAILED"), .emit .newline,
                  .delayMs 1000] ++ rest.1, rest.2)

/-- The actions of `setup` before `radar.begin` (lines 117–147). -/
def setupPreamble : List Act :=
  [.serialBegin, .delayMs 100, .serialBegin, .delayMs 2000, .radarDebug] ++
  (printSeparator.map .emit) ++
  [.emit (.lit "ESP32-C6 LD2410C Radar Sensor"), .emit .newline] ++
  (printSeparator.map .emit) ++
  [.emit (.lit "Radar TX connected to GPIO "), .emit (.num 4), .emit .newline,
   .emit (.lit "Radar RX connected to GPIO "), .emit (.num 5), .emit .newline,
   .emit (.lit "Initializing radar UART..."), .emit .newline,
   .serialBegin, .delayMs 1000,
   .emit (.lit "UART initialized, connecting to radar..."), .emit .newline,
   .emit (.lit "\nInitializing LD2410 radar: ")]

/-- The firmware-information block of `setup` (lines 153–162). -/
def firmwareInfo (r : Radar) : List Act :=
  (printSeparator.map .emit) ++
  [.emit (.lit "FIRMWARE INFORMATION:"), .emit .newline] ++
  (printSeparator.map .emit) ++
  [.emit (.lit "Version: "), .emit (.num r.firmware_major_version),
   .emit (.lit "."), .emit (.num r.firmware_minor_version),
   .emit (.lit "."), .emit (.numHex r.firmware_bugfix_version), .emit .newline]

/-- `setup()` (lines 116–214): returns the action trace and the globals as
left by `setup`, starting from their initialisers. -/
def setup (r : Radar) (o : SetupOracle) : List Act × SketchState :=
  if o.beginOk then
    let cfgSec : List Act :=
      [.emit (.lit "\nRequesting configuration..."), .emit .newline,
       .reqCurrentConfig o.configOk] ++
      (if o.configOk then
        [.emit (.lit "Configuration read successfully"), .emit .newline, .delayMs 500] ++
        (printConfiguration r).map .emit
       else
        [.emit (.lit "Failed to read configuration"), .emit .newline])
    let engPre : List Act :=
      [.emit (.lit "\nEnabling engineering mode..."), .emit .newline,
       .delayMs 1000, .radarDebug]
    let er := engRetry o.engAttempt 0 3
    let engPost : List Act :=
      if er.2 then []
      else
        [.emit (.lit "Engineering mode could not be enabled"), .emit .newline,
         .emit (.lit "Note: Some LD2410 variants may not support engineering mode"),
         .emit .newline,
         .emit (.lit "Continuing with basic detection mode..."), .emit .newline]
    let tail : List Act :=
      (printSeparator.map .emit) ++
      [.emit (.lit "REAL-TIME DETECTION DATA:"), .emit .newline,
       .emit (.lit "(Updates every 500ms)"), .emit .newline,
       .emit (.lit "Format: Presence: YES/NO | Stationary: XXcm E:YY | Moving: XXcm E:YY"),
       .emit .newline] ++
      (printSeparator.map .emit)
    (setupPreamble ++ [.radarBegin true, .emit (.lit "SUCCESS"), .emit .newline] ++
       firmwareInfo r ++ cfgSec ++ engPre ++ er.1 ++ engPost ++ tail,
     { initialState with configDisplayed := o.configOk, engineeringMode := er.2 })
  else
    (setupPreamble ++
       [.radarBegin false, .emit (.lit "FAILED - Check connections"), .emit .newline],
     initialState)

/-- The inputs one iteration of `loop` consumes: the value `millis()`
returns during the iteration, the radar object as the library presents it
after the reads, the console line available this iteration (if any, as read
by `readStringUntil`, before `trim`), the oracle result of
`requestCurrentConfiguration` should it be called, and the number of bytes
pending on the radar UART (consumed opaquely inside `radar.read()`; the
sketch never looks at it). -/
structure LoopInput where
  millis : Nat
  radar : Radar
  monitorLine : Option String
  configOk : Bool
  pendingRadarBytes : Nat

/-- Arduino's `String::trim()` (line 226): remove leading and trailing
whitespace.  Modelled over the character list so that it is kernel
computable. -/
def trimString (s : String) : String :=
  ⟨((s.data.dropWhile Char.isWhitespace).reverse.dropWhile Char.isWhitespace).reverse⟩

/-- The console-command check of `loop` (lines 224–245): if a line is
available, read it, trim it and dispatch it. -/
def cmdActs (inp : LoopInput) : List Act :=
  match inp.monitorLine with
  | none => []
  | some line => (handleCommand inp.radar (trimString line)).map Act.emit

/-- The rate-limited detection print of `loop` (lines 249–252): when more
than 500 ms of `millis()` time have passed since `lastReading`, update
`lastReading` and call `printDetectionInfo`. -/
def detStep (s : SketchState) (inp : LoopInput) : List Act × SketchState :=
  if usub32 inp.millis s.lastReading > 500 then
    let pd := printDetectionInfo inp.radar s.engineeringMode s.debugCounter
    (pd.1.map Act.emit,
     { s with lastReading := wrap32 inp.millis, debugCounter := pd.2 })
  else ([], s)

/-- The config re-request of `loop` (lines 255–263): when the configuration
has not yet been displayed and more than 30000 ms of `millis()` time have
passed since `lastConfigRead`, update `lastConfigRead`, announce the retry
and issue `requestCurrentConfiguration`; on success wait 500 ms, print the
configuration and set `configDisplayed`. -/
def cfgStep (s : SketchState) (inp : LoopInput) : List Act × SketchState :=
  if s.configDisplayed = false ∧ usub32 inp.millis s.lastConfigRead > 30000 then
    let s' := { s with lastConfigRead := wrap32 inp.millis }
    let base : List Act :=
      [.emit (.lit "\nRetrying configuration read..."), .emit .newline,
       .reqCurrentConfig inp.configOk]
    if inp.configOk then
      (base ++ [.delayMs 500] ++ (printConfiguration inp.radar).map .emit,
       { s' with configDisplayed := true })
    else (base, s')
  else ([], s)

/-- One iteration of `loop()` (lines 216–269): ten `radar.read()` calls,
the console-command check, then — while connected — the rate-limited
detection print and config re-request, or — while disconnected — the
rate-limited disconnected message. -/
def loopBody (s : SketchState) (inp : LoopInput) : List Act × SketchState :=
  let reads : List Act := List.replicate 10 .radarRead
  if inp.radar.isConnected then
    let det := detStep s inp
    let cfg := cfgStep det.2 inp
    (reads ++ cmdActs inp ++ det.1 ++ cfg.1, cfg.2)
  else
    if usub32 inp.millis s.lastReading > 5000 then
      (reads ++ cmdActs inp ++
         [.emit (.lit "Radar disconnected - Check connections"), .emit .newline],
       { s with lastReading := wrap32 inp.millis })
    else (reads ++ cmdActs inp, s)

/-- Iterating `loop` over a list of per-iteration inputs: final state. -/
def runLoop : SketchState → List LoopInput → SketchState
  | s, [] => s
  | s, inp :: rest => runLoop (loopBody s inp).2 rest

/-- Iterating `loop` over a list of per-iteration inputs: concatenated
action trace. -/
def runActs : SketchState → List LoopInput → List Act
  | _, [] => []
  | s, inp :: rest => (loopBody s inp).1 ++ runActs (loopBody s inp).2 rest

/-- Is this action a `radar.read()` call? -/
def isRadarRead : Act → Bool
  | .radarRead => true
  | _ => false

/-- Is this action a `requestCurrentConfiguration` call? -/
def isReqConfig : Act → Bool
  | .reqCurrentConfig _ => true
  | _ => false

/-- Is this action a `requestStartEngineeringMode` call or a 1000 ms
delay (the waits of the retry loop)? -/
def isEngEvent : Act → Bool
  | .reqStartEngMode _ => true
  | .delayMs n => n == 1000
  | _ => false

/-- Is this action one of the three blocking ld2410 command calls? -/
def isCmdCall : Act → Bool
  | .radarBegin _ => true
  | .reqCurrentConfig _ => true
  | .reqStartEngMode _ => true
  | _ => false

/-- The text a fragment puts on the wire (`Print::print` semantics). -/
def renderFrag : Frag → String
  | .lit s => s
  | .num n => toString n
  | .numHex n => String.mk (Nat.toDigits 16 n)
  | .newline => "\n"

/-- Fold a fragment trace into the completed output lines plus the pending
(unterminated) text, starting from the given pending text. -/
def linesAux : List Frag → String → List String × String
  | [], cur => ([], cur)
  | Frag.newline :: rest, cur =>
    ((linesAux rest "").1.cons cur, (linesAux rest "").2)
  | f :: rest, cur => linesAux rest (cur ++ renderFrag f)

/-- The completed output lines of a fragment trace, plus pending text. -/
def serialLines (l : List Frag) : List String × String := linesAux l ""

/-- The relation between consecutive rate-limited outputs: the later one,
with threshold `q.2`, came more than `q.2` ms of `uint32_t` `millis()`
time after the earlier one. -/
def gapOk (p q : Nat × Nat) : Prop := usub32 q.1 p.1 > q.2

/-- The relation between consecutive config re-request times: more than
30000 ms of `uint32_t` `millis()` time apart. -/
def gap30 (t₁ t₂ : Nat) : Prop := usub32 t₂ t₁ > 30000

/-- The rate-limited console outputs of a run of `loop`, observed from the
traces: for each iteration whose trace prints a detection line
(recognised by its `"Presence: "` prefix fragment) the pair
(`millis()` value, 500), and for each iteration whose trace prints the
disconnected message the pair (`millis()` value, 5000). -/
def rateOutputs : SketchState → List LoopInput → List (Nat × Nat)
  | _, [] => []
  | s, inp :: rest =>
    (if Act.emit (Frag.lit "Presence: ") ∈ (loopBody s inp).1 then
      [(wrap32 inp.millis, 500)]
     else if Act.emit (Frag.lit "Radar disconnected - Check connections") ∈
         (loopBody s inp).1 then
      [(wrap32 inp.millis, 5000)]
     else []) ++ rateOutputs (loopBody s inp).2 rest

/-- The `millis()` values of the iterations of a run of `loop` whose trace
issues a `requestCurrentConfiguration` call. -/
def cfgReqTimes : SketchState → List LoopInput → List Nat
  | _, [] => []
  | s, inp :: rest =>
    (if (loopBody s inp).1.any isReqConfig then [wrap32 inp.millis] else []) ++
    cfgReqTimes (loopBody s inp).2 rest

/-- A concrete radar object, used to evaluate the theorems on closed
inputs. -/
def sampleRadar (ts : TargetState) : Radar :=
  { targetState := ts
    stationaryTargetDistance := 120
    stationaryTargetEnergy := 55
    movingTargetDistance := 80
    movingTargetEnergy := 60
    engineering_moving_energy := fun i => i + 20
    engineering_stationary_energy := fun i => i + 40
    max_gate := 8
    max_moving_gate := 8
    max_stationary_gate := 7
    sensor_idle_time := 5
    motion_sensitivity := fun i => 30 + i
    stationary_sensitivity := fun i => 40 + i
    firmware_major_version := 1
    firmware_minor_version := 7
    firmware_bugfix_version := 22
    isConnected := true }

/-- A concrete setup oracle: `radar.begin` and the configuration read
succeed, the first engineering-mode attempt fails and the second
succeeds. -/
def sampleOracle : SetupOracle :=
  { beginOk := true, configOk := true, engAttempt := fun i => i == 1 }

/-! ## Helper lemmas -/

theorem gateLoop_nine {α : Type} (f : Nat → List α) :
    gateLoop f 9 = f 0 ++ f 1 ++ f 2 ++ f 3 ++ f 4 ++ f 5 ++ f 6 ++ f 7 ++ f 8 := rfl

theorem filter_map_emit_nil (p : Act → Bool) (hp : ∀ f, p (Act.emit f) = false)
    (l : List Frag) : (l.map Act.emit).filter p = [] := by
  induction l with
  | nil => rfl
  | cons a t ih => simp [hp, ih]

theorem not_mem_map_emit {a : Act} (h : ∀ f, a ≠ Act.emit f) (l : List Frag) :
    a ∉ l.map Act.emit := by
  intro hmem
  obtain ⟨f, -, hf⟩ := List.mem_map.mp hmem
  exact h f hf.symm

theorem presence_lit_not_in_printConfiguration (r : Radar) :
    Frag.lit "Presence: " ∉ printConfiguration r := by
  simp [printConfiguration, gateLoop_nine, printSeparator]

theorem disc_lit_not_in_printConfiguration (r : Radar) :
    Frag.lit "Radar disconnected - Check connections" ∉ printConfiguration r := by
  simp [printConfiguration, gateLoop_nine, printSeparator]

theorem presence_lit_not_in_handleCommand (r : Radar) (c : String) :
    Frag.lit "Presence: " ∉ handleCommand r c := by
  by_cases h : c = "GET_CONFIG" <;> simp [handleCommand, h, gateLoop_nine]

theorem disc_lit_not_in_handleCommand (r : Radar) (c : String) :
    Frag.lit "Radar disconnected - Check connections" ∉ handleCommand r c := by
  by_cases h : c = "GET_CONFIG" <;> simp [handleCommand, h, gateLoop_nine]

theorem disc_lit_not_in_printDetectionInfo (r : Radar) (e : Bool) (d : Nat) :
    Frag.lit "Radar disconnected - Check connections" ∉ (printDetectionInfo r e d).1 := by
  unfold printDetectionInfo
  cases hp : r.presenceDetected <;> cases hs : r.stationaryTargetDetected <;>
    cases hm : r.movingTargetDetected <;> cases e <;>
    simp [gateLoop_nine] <;> split <;> simp

theorem printDetectionInfo_head (r : Radar) (e : Bool) (d : Nat) :
    ∃ t, (printDetectionInfo r e d).1 = Frag.lit "Presence: " :: t := by
  unfold printDetectionInfo
  cases hp : r.presenceDetected <;> cases e <;> simp <;> split <;> simp

theorem detStep_state (s : SketchState) (inp : LoopInput) :
    (detStep s inp).2.configDisplayed = s.configDisplayed ∧
    (detStep s inp).2.lastConfigRead = s.lastConfigRead ∧
    (detStep s inp).2.engineeringMode = s.engineeringMode := by
  unfold detStep
  split <;> simp

theorem cfgStep_state (s : SketchState) (inp : LoopInput) :
    (cfgStep s inp).2.lastReading = s.lastReading ∧
    (cfgStep s inp).2.engineeringMode = s.engineeringMode ∧
    (cfgStep s inp).2.debugCounter = s.debugCounter := by
  unfold cfgStep
  split
  · split <;> simp
  · simp

theorem loopBody_engMode (s : SketchState) (inp : LoopInput) :
    (loopBody s inp).2.engineeringMode = s.engineeringMode := by
  unfold loopBody
  split
  · rw [(cfgStep_state _ _).2.1, (detStep_state _ _).2.2]
  · split <;> simp

theorem usub32_wrap_left (a b : Nat) : usub32 (wrap32 a) b = usub32 a b := by
  unfold usub32 wrap32
  rw [Nat.mod_add_mod]

theorem cfgStep_noop (s : SketchState) (inp : LoopInput)
    (h : s.configDisplayed = true) : cfgStep s inp = ([], s) := by
  unfold cfgStep
  rw [if_neg]
  simp [h]

theorem presence_lit_not_in_cmdActs (inp : LoopInput) :
    Act.emit (Frag.lit "Presence: ") ∉ cmdActs inp := by
  unfold cmdActs
  rcases inp.monitorLine with _ | line
  · simp
  · simpa using presence_lit_not_in_handleCommand inp.radar (trimString line)

theorem disc_lit_not_in_cmdActs (inp : LoopInput) :
    Act.emit (Frag.lit "Radar disconnected - Check connections") ∉ cmdActs inp := by
  unfold cmdActs
  rcases inp.monitorLine with _ | line
  · simp
  · simpa using disc_lit_not_in_handleCommand inp.radar (trimString line)

theorem presence_lit_not_in_cfgStep (s : SketchState) (inp : LoopInput) :
    Act.emit (Frag.lit "Presence: ") ∉ (cfgStep s inp).1 := by
  unfold cfgStep
  split
  · split
    · simpa using presence_lit_not_in_printConfiguration inp.radar
    · simp
  · simp

theorem disc_lit_not_in_cfgStep (s : SketchState) (inp : LoopInput) :
    Act.emit (Frag.lit "Radar disconnected - Check connections") ∉ (cfgStep s inp).1 := by
  unfold cfgStep
  split
  · split
    · simpa using disc_lit_not_in_printConfiguration inp.radar
    · simp
  · simp

theorem loopBody_detMarker (s : SketchState) (inp : LoopInput) :
    (Act.emit (Frag.lit "Presence: ") ∈ (loopBody s inp).1) ↔
      (inp.radar.isConnected = true ∧ usub32 inp.millis s.lastReading > 500) := by
  constructor
  · intro h
    unfold loopBody at h
    split at h
    case isTrue hconn =>
      refine ⟨hconn, ?_⟩
      simp at h
      rcases h with h | h | h
      · exact absurd h (presence_lit_not_in_cmdActs inp)
      · unfold detStep at h
        split at h
        case isTrue hcond => exact hcond
        case isFalse hcond => simp at h
      · exact absurd h (presence_lit_not_in_cfgStep _ inp)
    case isFalse hconn =>
      split at h <;> simp at h <;>
        exact absurd h (presence_lit_not_in_cmdActs inp)
  · rintro ⟨hconn, hcond⟩
    unfold loopBody
    rw [if_pos hconn]
    have hdet : Act.emit (Frag.lit "Presence: ") ∈ (detStep s inp).1 := by
      unfold detStep
      rw [if_pos hcond]
      obtain ⟨t, ht⟩ := printDetectionInfo_head inp.radar s.engineeringMode s.debugCounter
      simp [ht]
    simp [hdet]

theorem loopBody_discMarker (s : SketchState) (inp : LoopInput) :
    (Act.emit (Frag.lit "Radar disconnected - Check connections") ∈ (loopBody s inp).1) ↔
      (inp.radar.isConnected = false ∧ usub32 inp.millis s.lastReading > 5000) := by
  constructor
  · intro h
    unfold loopBody at h
    split at h
    case isTrue hconn =>
      exfalso
      simp at h
      rcases h with h | h | h
      · exact absurd h (disc_lit_not_in_cmdActs inp)
      · unfold detStep at h
        split at h
        · rcases List.mem_map.mp h with ⟨f, hf, he⟩
          injection he with hfe
          rw [hfe] at hf
          exact disc_lit_not_in_printDetectionInfo inp.radar s.engineeringMode
            s.debugCounter hf
        · simp at h
      · exact absurd h (disc_lit_not_in_cfgStep _ inp)
    case isFalse hconn =>
      split at h
      case isTrue hcond =>
        exact ⟨by simpa using hconn, hcond⟩
      case isFalse hcond =>
        exfalso
        simp at h
        exact absurd h (disc_lit_not_in_cmdActs inp)
  · rintro ⟨hconn, hcond⟩
    unfold loopBody
    rw [if_neg (by simp [hconn]), if_pos hcond]
    simp

theorem loopBody_lastReading (s : SketchState) (inp : LoopInput) :
    (loopBody s inp).2.lastReading =
      (if (inp.radar.isConnected = true ∧ usub32 inp.millis s.lastReading > 500) ∨
          (inp.radar.isConnected = false ∧ usub32 inp.millis s.lastReading > 5000)
       then wrap32 inp.millis else s.lastReading) := by
  unfold loopBody
  split
  case isTrue hconn =>
    rw [(cfgStep_state _ _).1]
    unfold detStep
    split
    case isTrue hcond => rw [if_pos (Or.inl ⟨hconn, hcond⟩)]
    case isFalse hcond =>
      rw [if_neg]
      rintro (⟨-, hc⟩ | ⟨hnc, -⟩)
      · exact hcond hc
      · rw [hconn] at hnc
        cases hnc
  case isFalse hconn =>
    have hnc : inp.radar.isConnected = false := by simpa using hconn
    split
    case isTrue hcond => rw [if_pos (Or.inr ⟨hnc, hcond⟩)]
    case isFalse hcond =>
      rw [if_neg]
      rintro (⟨hc, -⟩ | ⟨-, hc⟩)
      · exact hconn hc
      · exact hcond hc

theorem cmdActs_no_reqConfig (inp : LoopInput) :
    (cmdActs inp).any isReqConfig = false := by
  unfold cmdActs
  rcases inp.monitorLine with _ | line
  · simp
  · rw [List.any_eq_false]
    intro a ha
    rcases List.mem_map.mp ha with ⟨f, -, he⟩
    rw [← he]
    simp [isReqConfig]

theorem detStep_no_reqConfig (s : SketchState) (inp : LoopInput) :
    (detStep s inp).1.any isReqConfig = false := by
  unfold detStep
  split
  · rw [List.any_eq_false]
    intro a ha
    rcases List.mem_map.mp ha with ⟨f, -, he⟩
    rw [← he]
    simp [isReqConfig]
  · simp

theorem cfgStep_reqConfig (s : SketchState) (inp : LoopInput) :
    ((cfgStep s inp).1.any isReqConfig = true) ↔
      (s.configDisplayed = false ∧ usub32 inp.millis s.lastConfigRead > 30000) := by
  unfold cfgStep
  split
  case isTrue h =>
    split <;> simp [isReqConfig, h]
  case isFalse h =>
    simpa using h

theorem cfgStep_lastConfigRead (s : SketchState) (inp : LoopInput) :
    (cfgStep s inp).2.lastConfigRead =
      (if s.configDisplayed = false ∧ usub32 inp.millis s.lastConfigRead > 30000
       then wrap32 inp.millis else s.lastConfigRead) := by
  unfold cfgStep
  split
  case isTrue h =>
    split <;> simp
  case isFalse h =>
    rfl

theorem loopBody_reqConfig (s : SketchState) (inp : LoopInput) :
    ((loopBody s inp).1.any isReqConfig = true) ↔
      (inp.radar.isConnected = true ∧ s.configDisplayed = false ∧
        usub32 inp.millis s.lastConfigRead > 30000) := by
  simp only [loopBody]
  split
  case isTrue hconn =>
    rw [List.any_append, List.any_append, List.any_append,
      cmdActs_no_reqConfig, detStep_no_reqConfig]
    have hreads : (List.replicate 10 Act.radarRead).any isReqConfig = false := by decide
    rw [hreads]
    simp only [Bool.false_or]
    rw [cfgStep_reqConfig, (detStep_state s inp).1, (detStep_state s inp).2.1]
    simp [hconn]
  case isFalse hconn =>
    have hnc : inp.radar.isConnected = false := by simpa using hconn
    have hall : ∀ t : List Act,
        (List.replicate 10 Act.radarRead ++ cmdActs inp ++ t).any isReqConfig = false →
        True := fun _ _ => trivial
    split
    · rw [List.any_append, List.any_append, cmdActs_no_reqConfig]
      have hreads : (List.replicate 10 Act.radarRead).any isReqConfig = false := by decide
      rw [hreads]
      simp [isReqConfig, hnc]
    · rw [List.any_append, cmdActs_no_reqConfig]
      have hreads : (List.replicate 10 Act.radarRead).any isReqConfig = false := by decide
      rw [hreads]
      simp [hnc]

theorem loopBody_lastConfigRead (s : SketchState) (inp : LoopInput) :
    (loopBody s inp).2.lastConfigRead =
      (if inp.radar.isConnected = true ∧ s.configDisplayed = false ∧
          usub32 inp.millis s.lastConfigRead > 30000
       then wrap32 inp.millis else s.lastConfigRead) := by
  simp only [loopBody]
  split
  case isTrue hconn =>
    rw [cfgStep_lastConfigRead, (detStep_state s inp).1, (detStep_state s inp).2.1]
    simp [hconn]
  case isFalse hconn =>
    have hrhs : ¬(inp.radar.isConnected = true ∧ s.configDisplayed = false ∧
        usub32 inp.millis s.lastConfigRead > 30000) := by
      intro hx
      exact hconn hx.1
    rw [if_neg hrhs]
    by_cases hd : usub32 inp.millis s.lastReading > 5000
    · rw [if_pos hd]
    · rw [if_neg hd]

theorem loopBody_configDisplayed (s : SketchState) (inp : LoopInput)
    (h : s.configDisplayed = true) : (loopBody s inp).2.configDisplayed = true := by
  simp only [loopBody]
  split
  · rw [cfgStep_noop _ inp (by rw [(detStep_state s inp).1]; exact h)]
    rw [(detStep_state s inp).1]
    exact h
  · split <;> simp [h]

theorem setup_engMode_eq (r : Radar) (o : SetupOracle) :
    (setup r o).2.engineeringMode =
      (o.beginOk && (o.engAttempt 0 || o.engAttempt 1 || o.engAttempt 2)) := by
  cases hb : o.beginOk <;> cases h0 : o.engAttempt 0 <;> cases h1 : o.engAttempt 1 <;>
    cases h2 : o.engAttempt 2 <;>
    simp [setup, hb, h0, h1, h2, engRetry, initialState]

/-! ## Claims -/

/-- Claim C7: the decoder maps the enumerated target-state value to the
detection flags: "no target" gives presence/moving/stationary all false,
"moving only" gives presence and moving true with stationary false, and
"moving+stationary" gives all three true, as observed through
`presenceDetected()`, `movingTargetDetected()` and
`stationaryTargetDetected()`. -/
theorem target_state_decoding (r : Radar) :
    (r.targetState = TargetState.noTarget →
      r.presenceDetected = false ∧ r.movingTargetDetected = false ∧
      r.stationaryTargetDetected = false) ∧
    (r.targetState = TargetState.movingOnly →
      r.presenceDetected = true ∧ r.movingTargetDetected = true ∧
      r.stationaryTargetDetected = false) ∧
    (r.targetState = TargetState.movingAndStationary →
      r.presenceDetected = true ∧ r.movingTargetDetected = true ∧
      r.stationaryTargetDetected = true) := by
  refine ⟨?_, ?_, ?_⟩ <;> intro h <;>
    simp [Radar.presenceDetected, Radar.movingTargetDetected,
      Radar.stationaryTargetDetected, decodeTargetFlags, h]

/-- Witness for C7 at the "moving only" target state. -/
theorem target_state_decoding_w :
    (sampleRadar TargetState.movingOnly).presenceDetected = true ∧
    (sampleRadar TargetState.movingOnly).movingTargetDetected = true ∧
    (sampleRadar TargetState.movingOnly).stationaryTargetDetected = false :=
  (target_state_decoding (sampleRadar TargetState.movingOnly)).2.1 rfl

/-- Claim C3: every iteration of `loop` performs exactly ten `radar.read()`
calls, and they come before everything else in the iteration's trace,
whatever the number of bytes pending on the radar UART
(`inp.pendingRadarBytes`) and whatever the rest of the input. -/
theorem loop_reads_ten_times (s : SketchState) (inp : LoopInput) :
    (loopBody s inp).1.take 10 = List.replicate 10 Act.radarRead ∧
    (loopBody s inp).1.countP isRadarRead = 10 := by
  have hcmd : Act.radarRead ∉ cmdActs inp := by
    unfold cmdActs
    rcases inp.monitorLine with _ | line
    · simp
    · exact not_mem_map_emit (by intro f h; cases h) _
  have hdet : Act.radarRead ∉ (detStep s inp).1 := by
    unfold detStep
    split
    · exact not_mem_map_emit (by intro f h; cases h) _
    · simp
  have hcfg : ∀ s', Act.radarRead ∉ (cfgStep s' inp).1 := by
    intro s'
    unfold cfgStep
    split
    · split <;> simp
    · simp
  have tail : ∃ t, (loopBody s inp).1 = List.replicate 10 Act.radarRead ++ t ∧
      Act.radarRead ∉ t := by
    unfold loopBody
    split
    · exact ⟨cmdActs inp ++ (detStep s inp).1 ++ (cfgStep (detStep s inp).2 inp).1,
        by simp, by simp [hcmd, hdet, hcfg _]⟩
    · split
      · exact ⟨cmdActs inp ++
          [.emit (.lit "Radar disconnected - Check connections"), .emit .newline],
          by simp, by simp [hcmd]⟩
      · exact ⟨cmdActs inp, by simp, hcmd⟩
  obtain ⟨t, ht, hno⟩ := tail
  constructor
  · rw [ht]
    exact List.take_left' (by simp)
  · rw [ht, List.countP_append]
    have h2 : t.countP isRadarRead = 0 := by
      rw [List.countP_eq_zero]
      intro a ha
      cases a
      all_goals first
      | exact absurd ha hno
      | simp [isRadarRead]
    rw [h2]
    decide

/-- Claim C5 counterexample: it is not the case that two distinct trimmed
console lines both trigger an action — the dispatch of `loop` recognises
at most one command string. -/
theorem two_commands_counterexample :
    ¬ ∃ c₁ c₂ : String, c₁ ≠ c₂ ∧
      handleCommand (sampleRadar TargetState.noTarget) c₁ ≠ [] ∧
      handleCommand (sampleRadar TargetState.noTarget) c₂ ≠ [] := by
  rintro ⟨c₁, c₂, hne, h₁, h₂⟩
  have e₁ : c₁ = "GET_CONFIG" := by
    by_contra hc
    exact h₁ (by simp [handleCommand, hc])
  have e₂ : c₂ = "GET_CONFIG" := by
    by_contra hc
    exact h₂ (by simp [handleCommand, hc])
  exact hne (e₁.trans e₂.symm)

/-- Claim C5 (amended): exactly one distinct trimmed command string —
`"GET_CONFIG"` — is recognised and produces output; every other line is
ignored with no output, and the console line never changes the sketch
state. -/
theorem single_command_recognized (r : Radar) (c : String) :
    (handleCommand r c ≠ [] ↔ c = "GET_CONFIG") ∧
    (∀ (s : SketchState) (inp : LoopInput) (l : Option String),
      (loopBody s { inp with monitorLine := l }).2 = (loopBody s inp).2) := by
  constructor
  · constructor
    · intro h
      by_contra hc
      exact h (by simp [handleCommand, hc])
    · intro h
      rw [h]
      simp [handleCommand, gateLoop_nine]
  · intro s inp l
    rcases inp with ⟨m, rr, ml, ck, pb⟩
    have hdet : detStep s ⟨m, rr, l, ck, pb⟩ = detStep s ⟨m, rr, ml, ck, pb⟩ := rfl
    have hcfg : ∀ s', cfgStep s' ⟨m, rr, l, ck, pb⟩ = cfgStep s' ⟨m, rr, ml, ck, pb⟩ :=
      fun _ => rfl
    unfold loopBody
    by_cases hc : rr.isConnected = true
    · simp only [hc, if_true]
      rw [hdet, hcfg]
    · by_cases hd : usub32 m s.lastReading > 5000 <;> simp [hc, hd]

/-- Witness for C5: `"GET_CONFIG"` is recognised, `"STATUS"` is not. -/
theorem single_command_recognized_w :
    handleCommand (sampleRadar TargetState.noTarget) "GET_CONFIG" ≠ [] ∧
    handleCommand (sampleRadar TargetState.noTarget) "STATUS" = [] := by
  constructor
  · exact (single_command_recognized (sampleRadar TargetState.noTarget)
      "GET_CONFIG").1.mpr rfl
  · by_contra h
    have h2 := (single_command_recognized (sampleRadar TargetState.noTarget)
      "STATUS").1.mp h
    exact absurd h2 (by decide)

set_option maxRecDepth 4000 in
/-- Claim C2: enabling engineering mode is a caller-level retry policy in
`setup`: filtered to the single-shot `requestStartEngineeringMode` calls
and the 1000 ms waits, the `setup` trace contains (after the fixed 1000 ms
UART-settling and pre-attempt delays) at most 3 attempt calls, stops at
the first success, waits 1000 ms after each failure, and the
`engineeringMode` flag ends up true iff one of the at most 3 attempts
succeeded.  Each `Act.reqStartEngMode` is one engine call, which by
construction performs no retry itself. -/
theorem setup_eng_retry_policy (r : Radar) (o : SetupOracle) :
    ((setup r o).1.filter isEngEvent =
      [Act.delayMs 1000] ++
      (if o.beginOk then
        [Act.delayMs 1000] ++
        (if o.engAttempt 0 then [Act.reqStartEngMode true]
         else if o.engAttempt 1 then
           [Act.reqStartEngMode false, Act.delayMs 1000, Act.reqStartEngMode true]
         else if o.engAttempt 2 then
           [Act.reqStartEngMode false, Act.delayMs 1000, Act.reqStartEngMode false,
            Act.delayMs 1000, Act.reqStartEngMode true]
         else
           [Act.reqStartEngMode false, Act.delayMs 1000, Act.reqStartEngMode false,
            Act.delayMs 1000, Act.reqStartEngMode false, Act.delayMs 1000])
       else [])) ∧
    ((setup r o).2.engineeringMode =
      (o.beginOk && (o.engAttempt 0 || o.engAttempt 1 || o.engAttempt 2))) := by
  cases hb : o.beginOk <;> cases hc : o.configOk <;>
    cases h0 : o.engAttempt 0 <;> cases h1 : o.engAttempt 1 <;> cases h2 : o.engAttempt 2 <;>
    simp [setup, hb, hc, h0, h1, h2, setupPreamble, firmwareInfo, printSeparator,
      printConfiguration, gateLoop_nine, engRetry, isEngEvent, List.filter_append,
      initialState]

set_option maxRecDepth 4000 in
/-- Claim C8: the blocking ld2410 commands of `setup` form a strictly
sequential trace: `radar.begin` first; only if it succeeded, one
`requestCurrentConfiguration`, which returns before the first
`requestStartEngineeringMode` attempt; each command is a single atomic
trace event, so no second command begins before the previous one
returned. -/
theorem setup_commands_sequential (r : Radar) (o : SetupOracle) :
    (setup r o).1.filter isCmdCall =
      Act.radarBegin o.beginOk ::
      (if o.beginOk then
        Act.reqCurrentConfig o.configOk ::
        (if o.engAttempt 0 then [Act.reqStartEngMode true]
         else if o.engAttempt 1 then [Act.reqStartEngMode false, Act.reqStartEngMode true]
         else if o.engAttempt 2 then
           [Act.reqStartEngMode false, Act.reqStartEngMode false, Act.reqStartEngMode true]
         else
           [Act.reqStartEngMode false, Act.reqStartEngMode false, Act.reqStartEngMode false])
       else []) := by
  cases hb : o.beginOk <;> cases hc : o.configOk <;>
    cases h0 : o.engAttempt 0 <;> cases h1 : o.engAttempt 1 <;> cases h2 : o.engAttempt 2 <;>
    simp [setup, hb, hc, h0, h1, h2, setupPreamble, firmwareInfo, printSeparator,
      printConfiguration, gateLoop_nine, engRetry, isCmdCall, List.filter_append]

/-- Claim C1 counterexample: with engineering mode enabled, a call of
`printDetectionInfo` with `presenceDetected()` false does not produce
exactly the line `Presence: NO` — the per-gate energy block follows it. -/
theorem presence_no_output_counterexample :
    (sampleRadar TargetState.noTarget).presenceDetected = false ∧
    (printDetectionInfo (sampleRadar TargetState.noTarget) true 0).1 ≠
      [Frag.lit "Presence: ", Frag.lit "NO", Frag.newline] ∧
    Frag.lit "GATES_MOV:" ∈
      (printDetectionInfo (sampleRadar TargetState.noTarget) true 0).1 := by
  decide

/-- Claim C1 (amended): in `printDetectionInfo` the stationary
distance/energy pair is printed iff `presenceDetected()` and
`stationaryTargetDetected()` hold, the moving pair iff `presenceDetected()`
and `movingTargetDetected()` hold, and when `presenceDetected()` is false
the detection line is exactly `Presence: NO` with no target
distance/energy fields — it is the whole output whenever neither the
engineering-gate block nor the periodic debug notice follows. -/
theorem detection_fields_gated (r : Radar) (engMode : Bool) (dbg : Nat) :
    (Frag.lit " | Stationary: " ∈ (printDetectionInfo r engMode dbg).1 ↔
      r.presenceDetected = true ∧ r.stationaryTargetDetected = true) ∧
    (Frag.lit " | Moving: " ∈ (printDetectionInfo r engMode dbg).1 ↔
      r.presenceDetected = true ∧ r.movingTargetDetected = true) ∧
    (r.presenceDetected = false →
      ((printDetectionInfo r engMode dbg).1.take 3 =
        [Frag.lit "Presence: ", Frag.lit "NO", Frag.newline]) ∧
      (engMode = false → dbg + 1 < 50 →
        (printDetectionInfo r engMode dbg).1 =
          [Frag.lit "Presence: ", Frag.lit "NO", Frag.newline])) := by
  unfold printDetectionInfo
  cases hp : r.presenceDetected <;> cases hs : r.stationaryTargetDetected <;>
    cases hm : r.movingTargetDetected <;> cases engMode <;>
    by_cases hd : dbg + 1 ≥ 50 <;>
    simp [hp, hs, hm, hd, gateLoop_nine, Nat.lt_of_not_le]

/-- Witness for C1: both pairs printed when both targets are detected, and
the bare `Presence: NO` output when nothing is detected. -/
theorem detection_fields_gated_w :
    Frag.lit " | Stationary: " ∈
      (printDetectionInfo (sampleRadar TargetState.movingAndStationary) false 0).1 ∧
    (printDetectionInfo (sampleRadar TargetState.noTarget) false 0).1 =
      [Frag.lit "Presence: ", Frag.lit "NO", Frag.newline] := by
  constructor
  · exact (detection_fields_gated (sampleRadar TargetState.movingAndStationary)
      false 0).1.mpr (by decide)
  · exact ((detection_fields_gated (sampleRadar TargetState.noTarget) false 0).2.2
      (by decide)).2 rfl (by decide)

/-- Claim C4: a console line that trims to `GET_CONFIG` is answered with
exactly the lines `CONFIG_START`, `SENSITIVITY_MOTION:i:<motion[i]>` for
gates 0–8 in ascending order, `SENSITIVITY_STATIC:i:<stationary[i]>` for
gates 0–8 in ascending order, then `CONFIG_END`, all formatted from the
stored sensor-configuration values; and inside `loop` the reply is emitted
right after the ten reads. -/
theorem get_config_reply (r : Radar) (line : String)
    (h : trimString line = "GET_CONFIG") :
    (serialLines (handleCommand r (trimString line)) =
      ("CONFIG_START" ::
        (((List.range 9).map fun i =>
            "SENSITIVITY_MOTION:" ++ toString i ++ ":" ++
              toString (r.motion_sensitivity i)) ++
         ((List.range 9).map fun i =>
            "SENSITIVITY_STATIC:" ++ toString i ++ ":" ++
              toString (r.stationary_sensitivity i)) ++
         ["CONFIG_END"]), "")) ∧
    (∀ (s : SketchState) (inp : LoopInput), inp.monitorLine = some line →
      ∃ t, (loopBody s inp).1 =
        List.replicate 10 Act.radarRead ++
          (handleCommand inp.radar (trimString line)).map Act.emit ++ t) := by
  constructor
  · rw [h]
    have hr : List.range 9 = [0, 1, 2, 3, 4, 5, 6, 7, 8] := rfl
    simp [handleCommand, gateLoop_nine, serialLines, linesAux, renderFrag, hr]
  · intro s inp hml
    have hc : cmdActs inp = (handleCommand inp.radar (trimString line)).map Act.emit := by
      unfold cmdActs
      rw [hml]
    unfold loopBody
    split
    · exact ⟨(detStep s inp).1 ++ (cfgStep (detStep s inp).2 inp).1, by simp [hc]⟩
    · split
      · exact ⟨[.emit (.lit "Radar disconnected - Check connections"), .emit .newline],
          by simp [hc]⟩
      · exact ⟨[], by simp [hc]⟩

/-- Witness for C4 on a concrete radar and the line `" GET_CONFIG "`. -/
theorem get_config_reply_w :
    serialLines (handleCommand (sampleRadar TargetState.noTarget)
        (trimString " GET_CONFIG ")) =
      (["CONFIG_START",
        "SENSITIVITY_MOTION:0:30", "SENSITIVITY_MOTION:1:31", "SENSITIVITY_MOTION:2:32",
        "SENSITIVITY_MOTION:3:33", "SENSITIVITY_MOTION:4:34", "SENSITIVITY_MOTION:5:35",
        "SENSITIVITY_MOTION:6:36", "SENSITIVITY_MOTION:7:37", "SENSITIVITY_MOTION:8:38",
        "SENSITIVITY_STATIC:0:40", "SENSITIVITY_STATIC:1:41", "SENSITIVITY_STATIC:2:42",
        "SENSITIVITY_STATIC:3:43", "SENSITIVITY_STATIC:4:44", "SENSITIVITY_STATIC:5:45",
        "SENSITIVITY_STATIC:6:46", "SENSITIVITY_STATIC:7:47", "SENSITIVITY_STATIC:8:48",
        "CONFIG_END"], "") := by
  have h := (get_config_reply (sampleRadar TargetState.noTarget) " GET_CONFIG "
    (by decide)).1
  rw [h]
  decide

/-- Claim C6: the per-gate engineering block (`GATES_MOV:`/`GATES_STAT:`
with 9 comma-separated values per channel, gates 0–8 in ascending order)
is emitted by `printDetectionInfo` iff the `engineeringMode` flag is true;
the flag becomes true only through a successful
`requestStartEngineeringMode` attempt inside `setup`, and no `loop`
iteration ever changes it. -/
theorem engineering_gates_gated (r : Radar) (dbg : Nat) :
    (Frag.lit "GATES_MOV:" ∈ (printDetectionInfo r true dbg).1) ∧
    (∃ pre, (printDetectionInfo r true dbg).1 = pre ++
      [Frag.lit "GATES_MOV:",
       Frag.num (r.engineering_moving_energy 0), Frag.lit ",",
       Frag.num (r.engineering_moving_energy 1), Frag.lit ",",
       Frag.num (r.engineering_moving_energy 2), Frag.lit ",",
       Frag.num (r.engineering_moving_energy 3), Frag.lit ",",
       Frag.num (r.engineering_moving_energy 4), Frag.lit ",",
       Frag.num (r.engineering_moving_energy 5), Frag.lit ",",
       Frag.num (r.engineering_moving_energy 6), Frag.lit ",",
       Frag.num (r.engineering_moving_energy 7), Frag.lit ",",
       Frag.num (r.engineering_moving_energy 8),
       Frag.lit " | GATES_STAT:",
       Frag.num (r.engineering_stationary_energy 0), Frag.lit ",",
       Frag.num (r.engineering_stationary_energy 1), Frag.lit ",",
       Frag.num (r.engineering_stationary_energy 2), Frag.lit ",",
       Frag.num (r.engineering_stationary_energy 3), Frag.lit ",",
       Frag.num (r.engineering_stationary_energy 4), Frag.lit ",",
       Frag.num (r.engineering_stationary_energy 5), Frag.lit ",",
       Frag.num (r.engineering_stationary_energy 6), Frag.lit ",",
       Frag.num (r.engineering_stationary_energy 7), Frag.lit ",",
       Frag.num (r.engineering_stationary_energy 8),
       Frag.newline]) ∧
    (Frag.lit "GATES_MOV:" ∉ (printDetectionInfo r false dbg).1) ∧
    (∀ (r₂ : Radar) (o : SetupOracle), (setup r₂ o).2.engineeringMode = true →
      o.beginOk = true ∧
        (o.engAttempt 0 = true ∨ o.engAttempt 1 = true ∨ o.engAttempt 2 = true)) ∧
    (∀ (s : SketchState) (inp : LoopInput),
      (loopBody s inp).2.engineeringMode = s.engineeringMode) := by
  refine ⟨?_, ?_, ?_, ?_, fun s inp => loopBody_engMode s inp⟩
  · unfold printDetectionInfo
    cases hp : r.presenceDetected <;> simp [gateLoop_nine]
  · refine ⟨[Frag.lit "Presence: "] ++
      (if r.presenceDetected then
        [Frag.lit "YES"] ++
        (if r.stationaryTargetDetected then
          [Frag.lit " | Stationary: ", Frag.num r.stationaryTargetDistance,
           Frag.lit "cm E:", Frag.num r.stationaryTargetEnergy]
         else []) ++
        (if r.movingTargetDetected then
          [Frag.lit " | Moving: ", Frag.num r.movingTargetDistance,
           Frag.lit "cm E:", Frag.num r.movingTargetEnergy]
         else []) ++
        [Frag.newline]
       else [Frag.lit "NO", Frag.newline]), ?_⟩
    unfold printDetectionInfo
    simp [gateLoop_nine]
  · unfold printDetectionInfo
    cases hp : r.presenceDetected <;> cases hs : r.stationaryTargetDetected <;>
      cases hm : r.movingTargetDetected <;>
      by_cases hd : dbg + 1 ≥ 50 <;>
      simp [hp, hs, hm, hd, gateLoop_nine]
  · intro r₂ o h
    rw [setup_engMode_eq] at h
    simp only [Bool.and_eq_true, Bool.or_eq_true] at h
    exact ⟨h.1, by tauto⟩

/-- Witness for C6: on the sample oracle (first attempt fails, second
succeeds) the flag ends up true, and indeed `radar.begin` and one of the
first three attempts succeeded. -/
theorem engineering_gates_gated_w :
    sampleOracle.beginOk = true ∧
    (sampleOracle.engAttempt 0 = true ∨ sampleOracle.engAttempt 1 = true ∨
      sampleOracle.engAttempt 2 = true) :=
  (engineering_gates_gated (sampleRadar TargetState.noTarget) 0).2.2.2.1
    (sampleRadar TargetState.noTarget) sampleOracle (by decide)

theorem gapOk_snd {t a b : Nat} {l : List (Nat × Nat)}
    (h : List.Chain' gapOk ((t, a) :: l)) : List.Chain' gapOk ((t, b) :: l) := by
  cases l with
  | nil => simp
  | cons q l' =>
    rw [List.chain'_cons] at h ⊢
    exact ⟨h.1, h.2⟩

theorem rateOutputs_chain (s : SketchState) (l : List LoopInput) :
    List.Chain' gapOk ((s.lastReading, 0) :: rateOutputs s l) := by
  induction l generalizing s with
  | nil => simp [rateOutputs]
  | cons inp rest ih =>
    simp only [rateOutputs]
    by_cases h1 : Act.emit (Frag.lit "Presence: ") ∈ (loopBody s inp).1
    · rw [if_pos h1]
      obtain ⟨hconn, hcond⟩ := (loopBody_detMarker s inp).mp h1
      have hlr : (loopBody s inp).2.lastReading = wrap32 inp.millis := by
        rw [loopBody_lastReading, if_pos (Or.inl ⟨hconn, hcond⟩)]
      have htl := ih (loopBody s inp).2
      rw [hlr] at htl
      simp only [List.singleton_append]
      rw [List.chain'_cons]
      refine ⟨?_, gapOk_snd htl⟩
      show usub32 (wrap32 inp.millis) s.lastReading > 500
      rw [usub32_wrap_left]
      exact hcond
    · rw [if_neg h1]
      by_cases h2 : Act.emit (Frag.lit "Radar disconnected - Check connections") ∈
          (loopBody s inp).1
      · rw [if_pos h2]
        obtain ⟨hconn, hcond⟩ := (loopBody_discMarker s inp).mp h2
        have hlr : (loopBody s inp).2.lastReading = wrap32 inp.millis := by
          rw [loopBody_lastReading, if_pos (Or.inr ⟨hconn, hcond⟩)]
        have htl := ih (loopBody s inp).2
        rw [hlr] at htl
        simp only [List.singleton_append]
        rw [List.chain'_cons]
        refine ⟨?_, gapOk_snd htl⟩
        show usub32 (wrap32 inp.millis) s.lastReading > 5000
        rw [usub32_wrap_left]
        exact hcond
      · rw [if_neg h2]
        have hlr : (loopBody s inp).2.lastReading = s.lastReading := by
          rw [loopBody_lastReading, if_neg]
          intro hor
          cases hor with
          | inl h => exact h1 ((loopBody_detMarker s inp).mpr h)
          | inr h => exact h2 ((loopBody_discMarker s inp).mpr h)
        have htl := ih (loopBody s inp).2
        rw [hlr] at htl
        simpa using htl

theorem runLoop_configDisplayed_mono (s : SketchState) (l : List LoopInput)
    (h : s.configDisplayed = true) :
    (runLoop s l).configDisplayed = true ∧ (runActs s l).any isReqConfig = false := by
  induction l generalizing s with
  | nil =>
    exact ⟨h, by simp [runActs]⟩
  | cons inp rest ih =>
    have hstep := loopBody_configDisplayed s inp h
    have hreq : (loopBody s inp).1.any isReqConfig = false := by
      by_contra hc
      have hx := (loopBody_reqConfig s inp).mp (by simpa using hc)
      rw [h] at hx
      exact absurd hx.2.1 (by simp)
    obtain ⟨hrl, hra⟩ := ih (loopBody s inp).2 hstep
    refine ⟨by simpa [runLoop] using hrl, ?_⟩
    simp only [runActs, List.any_append]
    rw [hreq, hra]
    rfl

theorem cfgReqTimes_chain (s : SketchState) (l : List LoopInput) :
    List.Chain' gap30 (s.lastConfigRead :: cfgReqTimes s l) := by
  induction l generalizing s with
  | nil => simp [cfgReqTimes]
  | cons inp rest ih =>
    simp only [cfgReqTimes]
    by_cases hq : (loopBody s inp).1.any isReqConfig = true
    · rw [if_pos hq]
      obtain ⟨hconn, hdisp, hcond⟩ := (loopBody_reqConfig s inp).mp hq
      have hlcr : (loopBody s inp).2.lastConfigRead = wrap32 inp.millis := by
        rw [loopBody_lastConfigRead, if_pos ⟨hconn, hdisp, hcond⟩]
      have htl := ih (loopBody s inp).2
      rw [hlcr] at htl
      simp only [List.singleton_append]
      rw [List.chain'_cons]
      refine ⟨?_, htl⟩
      show usub32 (wrap32 inp.millis) s.lastConfigRead > 30000
      rw [usub32_wrap_left]
      exact hcond
    · rw [if_neg hq]
      have hlcr : (loopBody s inp).2.lastConfigRead = s.lastConfigRead := by
        rw [loopBody_lastConfigRead, if_neg]
        intro hx
        exact hq ((loopBody_reqConfig s inp).mpr hx)
      have htl := ih (loopBody s inp).2
      rw [hlcr] at htl
      simpa using htl

/-- A concrete loop-iteration input, used to evaluate the theorems on
closed inputs. -/
def sampleInput : LoopInput :=
  { millis := 600, radar := sampleRadar TargetState.movingOnly,
    monitorLine := none, configOk := true, pendingRadarBytes := 3 }

/-- Claim C9: the `configDisplayed` flag is monotone over any run of
`loop`: once true it stays true and no further
`requestCurrentConfiguration` is issued; requests happen only while the
radar is connected and the flag is false; and along any run the `millis()`
times of the config re-requests, measured from `lastConfigRead`, are
strictly more than 30000 ms apart in `uint32_t` time. -/
theorem config_request_policy (s : SketchState) (l : List LoopInput) :
    (s.configDisplayed = true →
      (runLoop s l).configDisplayed = true ∧
      (runActs s l).any isReqConfig = false) ∧
    List.Chain' gap30 (s.lastConfigRead :: cfgReqTimes s l) ∧
    (∀ (s' : SketchState) (inp : LoopInput),
      (loopBody s' inp).1.any isReqConfig = true →
        inp.radar.isConnected = true ∧ s'.configDisplayed = false) :=
  ⟨fun h => runLoop_configDisplayed_mono s l h,
   cfgReqTimes_chain s l,
   fun s' inp h => ⟨((loopBody_reqConfig s' inp).mp h).1,
     ((loopBody_reqConfig s' inp).mp h).2.1⟩⟩

/-- Witness for C9: from a state with the flag already true, one concrete
iteration keeps it true and issues no request. -/
theorem config_request_policy_w :
    (runLoop { initialState with configDisplayed := true } [sampleInput]).configDisplayed
        = true ∧
    (runActs { initialState with configDisplayed := true } [sampleInput]).any isReqConfig
        = false :=
  (config_request_policy { initialState with configDisplayed := true } [sampleInput]).1 rfl

/-- Claim C10: console output is rate-limited through the shared
`lastReading` timestamp: along any run of `loop`, consecutive rate-limited
outputs (a detection print, threshold 500 ms, or a disconnected message,
threshold 5000 ms) are always further apart in `uint32_t` `millis()` time
than the threshold of the later output, measured from `lastReading`, and a
detection print happens only while connected, the disconnected message
only while disconnected. -/
theorem console_output_rate_limited (s : SketchState) (l : List LoopInput) :
    List.Chain' gapOk ((s.lastReading, 0) :: rateOutputs s l) ∧
    (∀ (s' : SketchState) (inp : LoopInput),
      Act.emit (Frag.lit "Presence: ") ∈ (loopBody s' inp).1 →
        inp.radar.isConnected = true) ∧
    (∀ (s' : SketchState) (inp : LoopInput),
      Act.emit (Frag.lit "Radar disconnected - Check connections") ∈ (loopBody s' inp).1 →
        inp.radar.isConnected = false) :=
  ⟨rateOutputs_chain s l,
   fun s' inp h => ((loopBody_detMarker s' inp).mp h).1,
   fun s' inp h => ((loopBody_discMarker s' inp).mp h).1⟩

/-- Witness for C10: a concrete iteration whose trace prints the detection
line indeed ran while connected. -/
theorem console_output_rate_limited_w :
    sampleInput.radar.isConnected = true :=
  (console_output_rate_limited initialState []).2.1 initialState sampleInput (by decide)
